import Mathlib

/-!
Verification of the login state slice of Josedn/cinerama-web2
(src/housekeeping_state/reducers/loginSlice.ts).

The slice is embedded shallowly: the Immer-style "mutating" reducers become
pure record-update functions, the three outcome actions generated by the
asynchronous login thunk (pending / fulfilled / rejected) become constructors
of an explicit action type, and the combined slice reducer becomes a total
function from an action and a state to a state.
-/

/-- The `status` field of `LoginState`: `"idle" | "loading" | "failed"`. -/
inductive LoginStatus where
  | idle
  | loading
  | failed
deriving DecidableEq, Repr

/-- `interface LoginState { loggedIn: boolean; token: string; status: ... }`. -/
structure LoginState where
  loggedIn : Bool
  token : String
  status : LoginStatus
deriving DecidableEq, Repr

/-- `const initialState: LoginState = { loggedIn: false, token: "", status: "idle" }`. -/
def initialState : LoginState :=
  { loggedIn := false, token := "", status := .idle }

/-- The root state of the store, of which the login slice is the `login` field.
Selectors in the source take `RootState` and project `state.login`. -/
structure RootState where
  login : LoginState
deriving DecidableEq, Repr

/-- Reducer `logIn`: `state.token = action.payload; state.loggedIn = true;`. -/
def logIn (state : LoginState) (payload : String) : LoginState :=
  { state with token := payload, loggedIn := true }

/-- Reducer `logOut`: `state.loggedIn = false; state.token = "";`. -/
def logOut (state : LoginState) : LoginState :=
  { state with loggedIn := false, token := "" }

/-- The actions the slice reducer handles: the two synchronous actions of the
`reducers` block and the three lifecycle actions of the `loginAsync` thunk
handled in `extraReducers`.  The `rejected` action carries the (ignored)
error Redux attaches to it; `fulfilled` carries `response.data`, the token. -/
inductive LoginAction where
  | logInA (payload : String)
  | logOutA
  | pendingA
  | fulfilledA (payload : String)
  | rejectedA (err : String)
deriving DecidableEq, Repr

/-- The combined slice reducer (`loginSlice.reducer`, the default export):
dispatches on the action, with the `extraReducers` cases translated
case by case from the source. -/
def loginReducer (state : LoginState) : LoginAction → LoginState
  | .logInA payload => logIn state payload
  | .logOutA => logOut state
  | .pendingA => { state with status := .loading }
  | .fulfilledA payload =>
      { state with status := .idle, token := payload, loggedIn := true }
  | .rejectedA _ =>
      { state with status := .failed, loggedIn := false, token := "" }

/-- `export const selectToken = (state: RootState) => state.login.token;`. -/
def selectToken (state : RootState) : String :=
  state.login.token

/-- `export const selectLoggedIn = (state: RootState) =>
      state.login.token != "" && state.login.loggedIn;`. -/
def selectLoggedIn (state : RootState) : Bool :=
  state.login.token != "" && state.login.loggedIn

/-- The hand-written thunk `logOutIfLoggedIn`: it reads the current state,
computes `selectLoggedIn`, and dispatches `logOut` exactly when that is
true.  Shallowly embedded as the store-state transformer it induces. -/
def logOutIfLoggedIn (state : LoginState) : LoginState :=
  if selectLoggedIn ⟨state⟩ then loginReducer state .logOutA else state

/-- C1: for every state, if the `token` field is the empty string then the
derived authenticated query `selectLoggedIn` returns `false`, regardless of
the `loggedIn` field. -/
theorem selectLoggedIn_false_of_empty_token
    (s : RootState) (h : s.login.token = "") :
    selectLoggedIn s = false := by
  simp [selectLoggedIn, h]

/-- Witness for C1 at the directly constructed desync state
`{loggedIn: true, token: "", status: "idle"}`. -/
theorem selectLoggedIn_false_of_empty_token_witness :
    (RootState.mk { loggedIn := true, token := "", status := .idle }).login.token = ""
      ∧ selectLoggedIn ⟨{ loggedIn := true, token := "", status := .idle }⟩ = false :=
  ⟨rfl, selectLoggedIn_false_of_empty_token
    ⟨{ loggedIn := true, token := "", status := .idle }⟩ rfl⟩

/-- C2 counterexample: starting from `{loggedIn: false, token: "x",
status: "loading"}`, the `logIn` reducer with payload `""` yields a state
whose token is empty and whose status is still `loading`, contradicting the
claim that after `logIn` the token is non-empty and the status is not
`loading`. -/
theorem logIn_postcondition_fails :
    ¬ ((logIn { loggedIn := false, token := "x", status := .loading } "").token ≠ ""
        ∧ (logIn { loggedIn := false, token := "x", status := .loading } "").status
            ≠ .loading) := by
  decide

/-- C2 (amended): for every starting state and every non-empty payload `t`,
the `fulfilled` handler produces `loggedIn = true`, `token = t ≠ ""` and
`status = idle` (hence not `loading`); the synchronous `logIn` reducer
produces `loggedIn = true` and `token = t ≠ ""` and leaves `status`
unchanged, so its status is not `loading` whenever the starting status was
not `loading`. -/
theorem logIn_fulfilled_establish_session
    (s : LoginState) (t : String) (ht : t ≠ "") :
    ((loginReducer s (.fulfilledA t)).loggedIn = true
        ∧ (loginReducer s (.fulfilledA t)).token = t
        ∧ (loginReducer s (.fulfilledA t)).token ≠ ""
        ∧ (loginReducer s (.fulfilledA t)).status = .idle
        ∧ (loginReducer s (.fulfilledA t)).status ≠ .loading)
      ∧ ((logIn s t).loggedIn = true
        ∧ (logIn s t).token = t
        ∧ (logIn s t).token ≠ ""
        ∧ (logIn s t).status = s.status
        ∧ (s.status ≠ .loading → (logIn s t).status ≠ .loading)) := by
  simp [loginReducer, logIn, ht]

/-- Witness for C2 (amended) at the initial state and payload `"tok123"`. -/
theorem logIn_fulfilled_establish_session_witness :
    ("tok123" : String) ≠ ""
      ∧ (((loginReducer initialState (.fulfilledA "tok123")).loggedIn = true
            ∧ (loginReducer initialState (.fulfilledA "tok123")).token = "tok123"
            ∧ (loginReducer initialState (.fulfilledA "tok123")).token ≠ ""
            ∧ (loginReducer initialState (.fulfilledA "tok123")).status = .idle
            ∧ (loginReducer initialState (.fulfilledA "tok123")).status ≠ .loading)
          ∧ ((logIn initialState "tok123").loggedIn = true
            ∧ (logIn initialState "tok123").token = "tok123"
            ∧ (logIn initialState "tok123").token ≠ ""
            ∧ (logIn initialState "tok123").status = initialState.status
            ∧ (initialState.status ≠ .loading
                → (logIn initialState "tok123").status ≠ .loading))) :=
  ⟨by decide, logIn_fulfilled_establish_session initialState "tok123" (by decide)⟩

/-- C3: for every non-empty string `t` and every starting state, after the
`logIn` reducer with payload `t` the derived query `selectLoggedIn` returns
`true` and `selectToken` returns `t`. -/
theorem logIn_authenticates (s : LoginState) (t : String) (ht : t ≠ "") :
    selectLoggedIn ⟨logIn s t⟩ = true ∧ selectToken ⟨logIn s t⟩ = t := by
  simp [selectLoggedIn, selectToken, logIn, ht]

/-- Witness for C3 at the initial state and payload `"tok123"`. -/
theorem logIn_authenticates_witness :
    ("tok123" : String) ≠ ""
      ∧ selectLoggedIn ⟨logIn initialState "tok123"⟩ = true
      ∧ selectToken ⟨logIn initialState "tok123"⟩ = "tok123" :=
  ⟨by decide, logIn_authenticates initialState "tok123" (by decide)⟩

/-- C4: for every starting state, after the `logOut` reducer the state has
`token = ""` and `loggedIn = false`, so `selectLoggedIn` returns `false`
and `selectToken` returns `""`. -/
theorem logOut_clears_session (s : LoginState) :
    (logOut s).token = "" ∧ (logOut s).loggedIn = false
      ∧ selectLoggedIn ⟨logOut s⟩ = false ∧ selectToken ⟨logOut s⟩ = "" := by
  simp [selectLoggedIn, selectToken, logOut]

/-- C5: for every starting state and every error payload, the `rejected`
handler produces `status = failed`, `loggedIn = false`, `token = ""`; the
resulting state does not depend on the error (the failure is fully absorbed
into state); and from the initial state a rejected login (`pending` then
`rejected`) ends exactly at `{loggedIn: false, token: "", status: "failed"}`. -/
theorem rejected_absorbs_failure (s : LoginState) (e₁ e₂ : String) :
    ((loginReducer s (.rejectedA e₁)).status = .failed
        ∧ (loginReducer s (.rejectedA e₁)).loggedIn = false
        ∧ (loginReducer s (.rejectedA e₁)).token = "")
      ∧ loginReducer s (.rejectedA e₁) = loginReducer s (.rejectedA e₂)
      ∧ loginReducer (loginReducer initialState .pendingA) (.rejectedA e₁)
          = { loggedIn := false, token := "", status := .failed } := by
  simp [loginReducer, initialState]

/-- C6: for every state, `logOutIfLoggedIn` leaves the state unchanged when
the derived authenticated query is `false`, and produces exactly the state
of a direct `logOut` when it is `true`. -/
theorem logOutIfLoggedIn_correct (s : LoginState) :
    (selectLoggedIn ⟨s⟩ = false → logOutIfLoggedIn s = s)
      ∧ (selectLoggedIn ⟨s⟩ = true → logOutIfLoggedIn s = logOut s) := by
  constructor
  · intro h
    simp [logOutIfLoggedIn, h]
  · intro h
    simp [logOutIfLoggedIn, loginReducer, h]

/-- Witness for C6: the not-authenticated branch at the initial state and the
authenticated branch at `{loggedIn: true, token: "tok123", status: "idle"}`. -/
theorem logOutIfLoggedIn_correct_witness :
    (selectLoggedIn ⟨initialState⟩ = false ∧ logOutIfLoggedIn initialState = initialState)
      ∧ (selectLoggedIn ⟨{ loggedIn := true, token := "tok123", status := .idle }⟩ = true
          ∧ logOutIfLoggedIn { loggedIn := true, token := "tok123", status := .idle }
              = logOut { loggedIn := true, token := "tok123", status := .idle }) :=
  ⟨⟨by decide, (logOutIfLoggedIn_correct initialState).1 (by decide)⟩,
    ⟨by decide,
      (logOutIfLoggedIn_correct { loggedIn := true, token := "tok123", status := .idle }).2
        (by decide)⟩⟩

/-- C7: for every starting state, the `pending` handler sets `status` to
`loading` and leaves both `loggedIn` and `token` unchanged. -/
theorem pending_only_sets_loading (s : LoginState) :
    (loginReducer s .pendingA).status = .loading
      ∧ (loginReducer s .pendingA).loggedIn = s.loggedIn
      ∧ (loginReducer s .pendingA).token = s.token := by
  simp [loginReducer]

/-- C8: the `status` field changes only through the three asynchronous
outcome handlers: `logIn` and `logOut` leave it unchanged, any action that
changes it is `pending`, `fulfilled` or `rejected`, `pending` moves it to
`loading`, and from `loading` any change goes to `idle` via `fulfilled` or
to `failed` via `rejected`. -/
theorem status_transition_discipline (s : LoginState) (t : String) :
    (loginReducer s (.logInA t)).status = s.status
      ∧ (loginReducer s .logOutA).status = s.status
      ∧ (∀ a : LoginAction, (loginReducer s a).status ≠ s.status →
          a = .pendingA ∨ (∃ p, a = .fulfilledA p) ∨ (∃ e, a = .rejectedA e))
      ∧ (loginReducer s .pendingA).status = .loading
      ∧ (s.status = .loading → ∀ a : LoginAction,
          (loginReducer s a).status = .loading
            ∨ ((loginReducer s a).status = .idle ∧ ∃ p, a = .fulfilledA p)
            ∨ ((loginReducer s a).status = .failed ∧ ∃ e, a = .rejectedA e)) := by
  refine ⟨rfl, rfl, ?_, rfl, ?_⟩
  · intro a h
    cases a with
    | logInA p => exact absurd rfl h
    | logOutA => exact absurd rfl h
    | pendingA => exact Or.inl rfl
    | fulfilledA p => exact Or.inr (Or.inl ⟨p, rfl⟩)
    | rejectedA e => exact Or.inr (Or.inr ⟨e, rfl⟩)
  · intro h a
    cases a with
    | logInA p => exact Or.inl (h ▸ rfl)
    | logOutA => exact Or.inl (h ▸ rfl)
    | pendingA => exact Or.inl rfl
    | fulfilledA p => exact Or.inr (Or.inl ⟨rfl, p, rfl⟩)
    | rejectedA e => exact Or.inr (Or.inr ⟨rfl, e, rfl⟩)

/-- Witness for C8 at a state in `loading` status: `fulfilled` changes the
status away from `loading`, and the change lands on `idle`. -/
theorem status_transition_discipline_witness :
    ((loginReducer { loggedIn := false, token := "", status := .loading }
          (.fulfilledA "tok123")).status
        ≠ ({ loggedIn := false, token := "", status := .loading } : LoginState).status
      → (LoginAction.fulfilledA "tok123" = .pendingA
          ∨ (∃ p, LoginAction.fulfilledA "tok123" = .fulfilledA p)
          ∨ (∃ e, LoginAction.fulfilledA "tok123" = .rejectedA e)))
      ∧ ((loginReducer { loggedIn := false, token := "", status := .loading }
            (.fulfilledA "tok123")).status = .loading
          ∨ ((loginReducer { loggedIn := false, token := "", status := .loading }
                (.fulfilledA "tok123")).status = .idle
              ∧ ∃ p, LoginAction.fulfilledA "tok123" = .fulfilledA p)
          ∨ ((loginReducer { loggedIn := false, token := "", status := .loading }
                (.fulfilledA "tok123")).status = .failed
              ∧ ∃ e, LoginAction.fulfilledA "tok123" = .rejectedA e)) :=
  ⟨(status_transition_discipline
      { loggedIn := false, token := "", status := .loading } "t").2.2.1
      (.fulfilledA "tok123"),
    (status_transition_discipline
      { loggedIn := false, token := "", status := .loading } "t").2.2.2.2
      rfl (.fulfilledA "tok123")⟩

/-- C9: for every starting state, after `logIn` with the empty payload the
`loggedIn` field is `true` while `selectLoggedIn` returns `false`: the
public interface itself reaches the flag/token desync state. -/
theorem logIn_empty_payload_desync (s : LoginState) :
    (logIn s "").loggedIn = true ∧ selectLoggedIn ⟨logIn s ""⟩ = false := by
  simp [logIn, selectLoggedIn]

/-- C10: for every starting state, the `fulfilled` handler with an empty
token payload produces `loggedIn = true`, `token = ""` and `status = idle`,
so `selectLoggedIn` returns `false` despite the login having succeeded. -/
theorem fulfilled_empty_token_desync (s : LoginState) :
    (loginReducer s (.fulfilledA "")).loggedIn = true
      ∧ (loginReducer s (.fulfilledA "")).token = ""
      ∧ (loginReducer s (.fulfilledA "")).status = .idle
      ∧ selectLoggedIn ⟨loginReducer s (.fulfilledA "")⟩ = false := by
  simp [loginReducer, selectLoggedIn]
